import Mathlib

/-!
Verification of the simulated-time / orbital engine, the camera focus
state machine, and the linear asteroid-impact trajectory of an
interactive browser-based solar-system visualization.

The definitions below are shallow embeddings of the JavaScript source:

* `TimeControl` and `TimeControl.updateSimulationTime` embed
  `src/modules/timeControl.js` (the state fields and the per-frame tick;
  the wall-clock delta that the source derives from `performance.now()`
  is passed as an explicit parameter, and the DOM-only code paths
  (`updateUI`, `updateTimeDisplay`, event listeners) are omitted, since
  they read but never write the simulation state);
* `World`, `onMouseDown`, `updateCameraMovement` and their helpers embed
  `src/modules/interactionSystem.js` (the variant with planet tracking);
  the raycast outcome of a click is passed as an explicit `ClickHit`
  value, and the camera orientation (`lookAt`) is not modelled because no
  claim mentions it;
* `AsteroidTrajectory` and its operations embed the asteroid trajectory
  module (the first, fully synchronous variant of `update` /
  `triggerImpact`); the purely visual particle/line objects are reduced
  to the fields the control flow reads.

JavaScript numbers are modelled as exact reals (exact rationals in the
trajectory module, which involves no `Math.PI` and no square roots), and
JavaScript `Date` values as their millisecond timestamps.
-/

/-! ## Vectors (THREE.Vector3) -/

/-- A three-component vector, the record part of `THREE.Vector3`. -/
structure Vec3 (α : Type) where
  x : α
  y : α
  z : α
deriving DecidableEq, Repr

/-- Componentwise sum, `Vector3.add`. -/
def Vec3.add {α : Type} [Add α] (a b : Vec3 α) : Vec3 α :=
  ⟨a.x + b.x, a.y + b.y, a.z + b.z⟩

/-- Componentwise difference, `Vector3.sub` / `subVectors`. -/
def Vec3.sub {α : Type} [Sub α] (a b : Vec3 α) : Vec3 α :=
  ⟨a.x - b.x, a.y - b.y, a.z - b.z⟩

/-- Scalar multiple, `Vector3.multiplyScalar`. -/
def Vec3.smul {α : Type} [Mul α] (c : α) (a : Vec3 α) : Vec3 α :=
  ⟨c * a.x, c * a.y, c * a.z⟩

/-- `Vector3.lerpVectors(v1, v2, t)` (and `v1.lerp(v2, t)`):
componentwise `v1 + (v2 - v1) * t`. -/
def Vec3.lerpV {α : Type} [Add α] [Sub α] [Mul α] (v1 v2 : Vec3 α) (t : α) : Vec3 α :=
  ⟨v1.x + (v2.x - v1.x) * t, v1.y + (v2.y - v1.y) * t, v1.z + (v2.z - v1.z) * t⟩

/-- `Vector3.length()`: the Euclidean norm. -/
noncomputable def Vec3.length (v : Vec3 ℝ) : ℝ :=
  Real.sqrt (v.x * v.x + v.y * v.y + v.z * v.z)

/-- `Vector3.normalize()`: `divideScalar(length() || 1)` — the zero vector is
left unchanged, every other vector is scaled to unit length. -/
noncomputable def Vec3.normalize (v : Vec3 ℝ) : Vec3 ℝ :=
  Vec3.smul (1 / (if v.length = 0 then 1 else v.length)) v

/-- `a.distanceTo(b)`: the norm of the difference. -/
noncomputable def Vec3.distanceTo (a b : Vec3 ℝ) : ℝ :=
  (Vec3.sub a b).length

/-! ## Time control (src/modules/timeControl.js with constants.js) -/

/-- One entry of `TIME_CONTROL_CONFIG.speedModes` (the unused `unit` field,
always `"days"`, is omitted). -/
structure SpeedMode where
  label : String
  multiplier : ℚ
  direction : String
deriving DecidableEq, Repr

/-- `TIME_CONTROL_CONFIG.speedModes` from constants.js. -/
def speedModes : List SpeedMode :=
  [⟨"-1 YEAR/S", -365, "reverse"⟩,
   ⟨"-6 MTHS/S", -180, "reverse"⟩,
   ⟨"-2 MTHS/S", -60, "reverse"⟩,
   ⟨"-1 MTH/S", -30, "reverse"⟩,
   ⟨"-2 WEEKS/S", -14, "reverse"⟩,
   ⟨"-1 WEEK/S", -7, "reverse"⟩,
   ⟨"-5 DAYS/S", -5, "reverse"⟩,
   ⟨"-1 DAY/S", -1, "reverse"⟩,
   ⟨"REAL RATE", 0.1, "real"⟩,
   ⟨"+1 DAY/S", 1, "forward"⟩,
   ⟨"+5 DAYS/S", 5, "forward"⟩,
   ⟨"+1 WEEK/S", 7, "forward"⟩,
   ⟨"+2 WEEKS/S", 14, "forward"⟩,
   ⟨"+1 MTH/S", 30, "forward"⟩,
   ⟨"+2 MTHS/S", 60, "forward"⟩,
   ⟨"+6 MTHS/S", 180, "forward"⟩,
   ⟨"+1 YEAR/S", 365, "forward"⟩]

/-- `TIME_CONTROL_CONFIG.defaultSpeedIndex` (REAL RATE, the center). -/
def defaultSpeedIndex : ℕ := 8

/-- The global `SETTINGS` object of constants.js, restricted to the two
fields the time control writes (`sunIntensity` is never written). -/
structure Settings where
  accelerationOrbit : ℝ
  acceleration : ℝ

/-- The mutable state of the `TimeControl` class (timeControl.js).
`lastFrameTime` is replaced by passing the frame delta to
`updateSimulationTime` directly; `startingDate` and `startingOrbitAngle`
are constants (`startingDateMs`, `startingOrbitAngle` below) because no
code path ever writes them; the DOM element references are dropped. -/
structure TimeControl where
  isPaused : Bool
  currentSpeedIndex : ℕ
  simulationDate : ℝ
  earthOrbitAngle : ℝ

/-- `new Date(2025, 9, 1)` — Oct 1 2025, 00:00:00 — as milliseconds.
The absolute value is immaterial (every claim involves date differences
or dates derived from this constant); what matters is its distance to
`initialSimulationDateMs`. -/
def startingDateMs : ℝ := 1759276800000

/-- `new Date(2025, 9, 1, 6, 39, 36)` is 6 h 39 min 36 s, i.e. exactly
23976000 ms, after `new Date(2025, 9, 1)`. -/
def initialSimulationDateMs : ℝ := startingDateMs + 23976000

/-- `this.startingOrbitAngle = 0`, set in the constructor and never
written again. -/
def startingOrbitAngle : ℝ := 0

/-- The `TimeControl` constructor. -/
def TimeControl.construct : TimeControl :=
  { isPaused := false
    currentSpeedIndex := defaultSpeedIndex
    simulationDate := initialSimulationDateMs
    earthOrbitAngle := 0 }

/-- `TimeControl.getCurrentSpeed()`. The index is always in range (the
only writers clamp it to `[0, speedModes.length - 1]`), so the `getD`
default is never consulted. -/
def TimeControl.getCurrentSpeed (tc : TimeControl) : ℚ :=
  if tc.isPaused then 0 else (speedModes.getD tc.currentSpeedIndex ⟨"", 0, ""⟩).multiplier

/-- `TimeControl.pause()` (the `updateUI` call only touches the DOM). -/
def TimeControl.pause (tc : TimeControl) : TimeControl :=
  { tc with isPaused := true }

/-- `TimeControl.resume()`. -/
def TimeControl.resume (tc : TimeControl) : TimeControl :=
  { tc with isPaused := false }

/-- `TimeControl.togglePause()`. -/
def TimeControl.togglePause (tc : TimeControl) : TimeControl :=
  { tc with isPaused := !tc.isPaused }

/-- `TimeControl.updateSimulationTime()`, with the wall-clock delta
(seconds, `(performance.now() - lastFrameTime) / 1000` in the source)
passed explicitly, and the written `SETTINGS` fields returned next to the
new clock state. -/
noncomputable def TimeControl.updateSimulationTime (tc : TimeControl) (deltaTime : ℝ)
    (settings : Settings) : TimeControl × Settings :=
  if tc.isPaused then
    (tc, { settings with accelerationOrbit := 0, acceleration := 0 })
  else
    let speedMultiplier : ℝ := (tc.getCurrentSpeed : ℝ)
    let radiansPerDay : ℝ := Real.pi * 2 / 365.25
    let radiansPerSecond := radiansPerDay * speedMultiplier
    let earthOrbitAngle := tc.earthOrbitAngle + radiansPerSecond * deltaTime
    let totalOrbitAngle := earthOrbitAngle - startingOrbitAngle
    let yearsElapsed := totalOrbitAngle / (Real.pi * 2)
    let daysElapsed := yearsElapsed * 365.25
    let millisecondsElapsed := daysElapsed * 24 * 60 * 60 * 1000
    let simulationDate := startingDateMs + millisecondsElapsed
    let targetSecondsForOneOrbit := 365.25 / |speedMultiplier|
    let targetFramesForOneOrbit := targetSecondsForOneOrbit * 60
    let requiredAcceleration := Real.pi * 2 / (0.001 * targetFramesForOneOrbit)
    let directionMultiplier : ℝ := if 0 ≤ speedMultiplier then 1 else -1
    ({ tc with earthOrbitAngle := earthOrbitAngle, simulationDate := simulationDate },
     { settings with
        accelerationOrbit := requiredAcceleration * directionMultiplier
        acceleration := |speedMultiplier| * directionMultiplier })

/-- A sequence of per-frame ticks with the given wall-clock deltas. -/
noncomputable def ticks (p : TimeControl × Settings) (ds : List ℝ) : TimeControl × Settings :=
  ds.foldl (fun q d => q.1.updateSimulationTime d q.2) p

/-- The initial `SETTINGS` values from constants.js. -/
def settings0 : Settings := { accelerationOrbit := 1, acceleration := 1 }

/-- A fresh clock switched to the "+1 DAY/S" mode (index 9, multiplier 1). -/
def tcPlusOneDay : TimeControl :=
  { TimeControl.construct with currentSpeedIndex := 9 }

/-! ### Basic evaluation lemmas for the clock -/

theorem getCurrentSpeed_plusOneDay : tcPlusOneDay.getCurrentSpeed = 1 := by
  decide

theorem updateSimulationTime_paused (tc : TimeControl) (d : ℝ) (s : Settings)
    (h : tc.isPaused = true) :
    tc.updateSimulationTime d s = (tc, { s with accelerationOrbit := 0, acceleration := 0 }) := by
  simp [TimeControl.updateSimulationTime, h]

theorem ticks_paused (ds : List ℝ) (tc : TimeControl) (s : Settings)
    (h : tc.isPaused = true) (hne : ds ≠ []) :
    ticks (tc, s) ds = (tc, { s with accelerationOrbit := 0, acceleration := 0 }) := by
  induction ds generalizing s with
  | nil => exact absurd rfl hne
  | cons d ds ih =>
      rw [ticks, List.foldl_cons]
      rw [show (tc, s).1.updateSimulationTime d (tc, s).2
            = (tc, { s with accelerationOrbit := 0, acceleration := 0 }) from
          updateSimulationTime_paused tc d s h]
      cases ds with
      | nil => rfl
      | cons d' ds' => exact ih _ (by simp)

/-! ### C1 -/

theorem plusOneDay_tick_eval :
    (tcPlusOneDay.updateSimulationTime 365.25 settings0).1.earthOrbitAngle
        = tcPlusOneDay.earthOrbitAngle + 2 * Real.pi
    ∧ (tcPlusOneDay.updateSimulationTime 365.25 settings0).1.simulationDate
        = tcPlusOneDay.simulationDate + 31533624000 := by
  have hm : ((tcPlusOneDay.getCurrentSpeed : ℚ) : ℝ) = 1 := by
    rw [getCurrentSpeed_plusOneDay]; norm_num
  have hp : tcPlusOneDay.isPaused = false := rfl
  have ha : tcPlusOneDay.earthOrbitAngle = 0 := rfl
  have hd : tcPlusOneDay.simulationDate = startingDateMs + 23976000 := rfl
  have hpi : Real.pi ≠ 0 := Real.pi_ne_zero
  rw [TimeControl.updateSimulationTime, hp]
  simp only [Bool.false_eq_true, if_false, hm, ha, hd, startingOrbitAngle]
  constructor
  · field_simp
    ring
  · field_simp
    ring

/-- C1, as stated, is false: the tick does advance the orbit angle by
exactly `2π`, but the new simulation date is recomputed from
`startingDate` (Oct 1 2025 00:00:00), not from the previous simulation
date (initialized to Oct 1 2025 06:39:36), so the date advances by
31533624000 ms = 364.9725 days, not by 365.25 days (31557600000 ms). -/
theorem c1_counterexample :
    ((tcPlusOneDay.updateSimulationTime 365.25 settings0).1.simulationDate
        - tcPlusOneDay.simulationDate) ≠ 365.25 * 86400000 := by
  rw [plusOneDay_tick_eval.2]
  norm_num

/-- C1 amended: from a fresh unpaused clock in the "+1 DAY/S" mode, a tick
of 365.25 wall-clock seconds advances the Earth orbit angle by exactly
`2π` and sets the simulation date to the starting date plus 365.25 days;
because the clock's initial date sits 6 h 39 min 36 s past the starting
date, the date advances by exactly 364.9725 simulated days
(31533624000 ms), not 365.25 days. -/
theorem c1_plusOneDay_tick :
    (tcPlusOneDay.updateSimulationTime 365.25 settings0).1.earthOrbitAngle
        = tcPlusOneDay.earthOrbitAngle + 2 * Real.pi
    ∧ (tcPlusOneDay.updateSimulationTime 365.25 settings0).1.simulationDate
        = tcPlusOneDay.simulationDate + 31533624000 :=
  plusOneDay_tick_eval

/-! ### C2 -/

/-- C2: after `pause()`, any nonempty sequence of per-frame updates with
arbitrary wall-clock deltas leaves the simulation date and the Earth
orbit angle unchanged, and both derived scale factors read exactly 0. -/
theorem c2_pause_freeze (tc : TimeControl) (s : Settings) (ds : List ℝ) (hne : ds ≠ []) :
    (ticks (tc.pause, s) ds).1.simulationDate = tc.simulationDate
    ∧ (ticks (tc.pause, s) ds).1.earthOrbitAngle = tc.earthOrbitAngle
    ∧ (ticks (tc.pause, s) ds).2.accelerationOrbit = 0
    ∧ (ticks (tc.pause, s) ds).2.acceleration = 0 := by
  rw [ticks_paused ds tc.pause s rfl hne]
  exact ⟨rfl, rfl, rfl, rfl⟩

/-- C2 witness: the pause freeze at a concrete clock and a concrete pair
of frame deltas. -/
theorem c2_pause_freeze_witness :
    ([(0.016 : ℝ), 1000] ≠ ([] : List ℝ))
    ∧ ((ticks (TimeControl.construct.pause, settings0) [0.016, 1000]).1.simulationDate
          = TimeControl.construct.simulationDate
        ∧ (ticks (TimeControl.construct.pause, settings0) [0.016, 1000]).1.earthOrbitAngle
          = TimeControl.construct.earthOrbitAngle
        ∧ (ticks (TimeControl.construct.pause, settings0) [0.016, 1000]).2.accelerationOrbit = 0
        ∧ (ticks (TimeControl.construct.pause, settings0) [0.016, 1000]).2.acceleration = 0) :=
  ⟨by simp, c2_pause_freeze TimeControl.construct settings0 [0.016, 1000] (by simp)⟩

/-! ### C3 -/

/-- C3, as stated, is false at the initial state: at construction the
orbit angle is 0, so the date derived from the angle is the epoch
(`startingDateMs`), but `simulationDate` is initialized 23976000 ms
(6 h 39 min 36 s) past the epoch. -/
theorem c3_counterexample :
    TimeControl.construct.simulationDate
      ≠ startingDateMs
        + TimeControl.construct.earthOrbitAngle / (Real.pi * 2) * 365.25 * 86400000 := by
  have ha : TimeControl.construct.earthOrbitAngle = 0 := rfl
  have hd : TimeControl.construct.simulationDate = startingDateMs + 23976000 := rfl
  rw [ha, hd]
  norm_num

/-- C3 amended: the invariant `simulationDate = epoch + (angle / 2π) ×
365.25 days` holds after every unpaused per-frame update (the date is
recomputed from the new angle on every such tick), but it does not hold
at construction, where the date is 6 h 39 min 36 s past the value the
angle derives. -/
theorem c3_date_derived_from_angle (tc : TimeControl) (s : Settings) (dt : ℝ)
    (h : tc.isPaused = false) :
    ((tc.updateSimulationTime dt s).1.simulationDate
      = startingDateMs
        + ((tc.updateSimulationTime dt s).1.earthOrbitAngle - startingOrbitAngle)
          / (Real.pi * 2) * 365.25 * 86400000) := by
  rw [TimeControl.updateSimulationTime, h]
  simp only [Bool.false_eq_true, if_false]
  ring

/-- C3 witness: the amended invariant at a concrete unpaused tick. -/
theorem c3_date_derived_from_angle_witness :
    TimeControl.construct.isPaused = false
    ∧ ((TimeControl.construct.updateSimulationTime 2 settings0).1.simulationDate
        = startingDateMs
          + ((TimeControl.construct.updateSimulationTime 2 settings0).1.earthOrbitAngle
              - startingOrbitAngle) / (Real.pi * 2) * 365.25 * 86400000) :=
  ⟨rfl, c3_date_derived_from_angle TimeControl.construct settings0 2 rfl⟩

/-! ## Interaction system (src/modules/interactionSystem.js, tracking variant) -/

/-- What `identifyPlanet` returns for a successful hit: the body's name
(the key of the offset table), whether it is the sun, and the world
position its scene object reports (`planet.getWorldPosition`). -/
structure Body where
  name : String
  isSun : Bool
  worldPosition : Vec3 ℝ

/-- The OrbitControls fields the interaction system reads or writes. -/
structure Controls where
  target : Vec3 ℝ
  enabled : Bool
  enableRotate : Bool
  enableZoom : Bool
  enablePan : Bool
  autoRotate : Bool
  enableDamping : Bool
  dampingFactor : ℝ

/-- The mutable fields of the `InteractionSystem` class. -/
structure InteractionSystem where
  selectedPlanet : Option Body
  isMovingTowardsPlanet : Bool
  targetCameraPosition : Vec3 ℝ
  offset : ℝ
  isPlanetInfoVisible : Bool
  isTrackingPlanet : Bool
  trackedPlanet : Option Body
  cameraRelativePosition : Vec3 ℝ
  isZoomingOut : Bool

/-- The world the interaction system acts on: the camera position, the
controls, the time control, and the interaction state itself. The camera
orientation (`lookAt`) is not modelled: no claim mentions it. -/
structure World where
  cameraPosition : Vec3 ℝ
  controls : Controls
  timeControl : TimeControl
  inter : InteractionSystem

/-- `CAMERA_CONFIG.zoomOutPosition` from constants.js. -/
def zoomOutTargetPosition : Vec3 ℝ := ⟨-175, 115, 5⟩

/-- `InteractionSystem.getCameraOffset(planetName)`: the authored
per-body framing-distance table, defaulting to 20 (`offsets[name] || 20`). -/
noncomputable def getCameraOffset (planetName : String) : ℝ :=
  if planetName = "Sun" then 80
  else if planetName = "Mercury" then 10
  else if planetName = "Venus" then 25
  else if planetName = "Earth" then 25
  else if planetName = "Mars" then 15
  else if planetName = "Jupiter" then 50
  else if planetName = "Saturn" then 50
  else if planetName = "Uranus" then 25
  else if planetName = "Neptune" then 20
  else if planetName = "Pluto" then 10
  else 20

/-- `InteractionSystem.freeCameraControls()` (the trailing
`controls.update()` has no modelled effect). -/
def freeCameraControls (c : Controls) : Controls :=
  { c with
      enabled := true
      enableRotate := true
      enableZoom := true
      enablePan := true
      autoRotate := false
      enableDamping := true
      dampingFactor := 0.75 }

/-- `InteractionSystem.stopPlanetTracking()`. -/
def stopPlanetTracking (i : InteractionSystem) : InteractionSystem :=
  { i with
      isTrackingPlanet := false
      trackedPlanet := none
      cameraRelativePosition := ⟨0, 0, 0⟩ }

/-- `InteractionSystem.closeInfoNoZoomOut()`: hides the info panel, stops
any tracking, and resumes the time control. -/
def closeInfoNoZoomOut (w : World) : World :=
  { w with
      inter := stopPlanetTracking { w.inter with isPlanetInfoVisible := false }
      timeControl := w.timeControl.resume }

/-- The click position of a body in `onMouseDown`: the origin for the
sun, otherwise the body's reported world position. -/
def bodyClickPosition (b : Body) : Vec3 ℝ :=
  if b.isSun then ⟨0, 0, 0⟩ else b.worldPosition

/-- The outcome of the raycast in `onMouseDown`: a hit that
`identifyPlanet` resolves to a body, a hit it does not resolve
(returns null), or no intersection at all (empty space). -/
inductive ClickHit where
  | body (b : Body)
  | unknown
  | empty

/-- `InteractionSystem.onMouseDown(event)`, with the raycast outcome
passed explicitly. Clicks are dropped entirely while the info panel is
visible. On a resolved hit: `identifyPlanet` stores the body and its
offset, `closeInfoNoZoomOut` runs (resuming the clock), the clock is
paused, the controls target is set and the controls enabled, the target
camera position is computed, and the camera enters the
moving-towards-planet phase. On an unresolved hit only `selectedPlanet`
is overwritten. On empty space: stop tracking, `closeInfoNoZoomOut`,
free the controls. -/
noncomputable def onMouseDown (hit : ClickHit) (w : World) : World :=
  if w.inter.isPlanetInfoVisible then w
  else
    match hit with
    | .body b =>
        let w1 : World :=
          { w with inter :=
              { w.inter with selectedPlanet := some b, offset := getCameraOffset b.name } }
        let w2 := closeInfoNoZoomOut w1
        let w3 : World := { w2 with timeControl := w2.timeControl.pause }
        let bodyPosition := bodyClickPosition b
        let w4 : World :=
          { w3 with controls :=
              { w3.controls with
                  target := bodyPosition
                  enabled := true
                  enableRotate := true
                  enableZoom := true
                  enablePan := true } }
        let target :=
          Vec3.add bodyPosition
            (Vec3.smul w4.inter.offset
              (Vec3.normalize (Vec3.sub w4.cameraPosition bodyPosition)))
        { w4 with inter :=
            { w4.inter with targetCameraPosition := target, isMovingTowardsPlanet := true } }
    | .unknown =>
        { w with inter := { w.inter with selectedPlanet := none } }
    | .empty =>
        let w1 : World := { w with inter := stopPlanetTracking w.inter }
        let w2 := closeInfoNoZoomOut w1
        { w2 with controls := freeCameraControls w2.controls }

/-- `InteractionSystem.updatePlanetTracking()`: instantly recopy the
tracked body's position plus the stored relative offset into the camera. -/
def updatePlanetTracking (w : World) : World :=
  match w.inter.trackedPlanet with
  | none => w
  | some p =>
      if p.isSun then w
      else { w with cameraPosition := Vec3.add p.worldPosition w.inter.cameraRelativePosition }

/-- `InteractionSystem.updateCameraMovement()`: the per-frame camera
animation step (move towards a selected body, zoom out to the overview,
or follow a tracked body). -/
noncomputable def updateCameraMovement (w : World) : World :=
  if w.inter.isMovingTowardsPlanet then
    let cam := Vec3.lerpV w.cameraPosition w.inter.targetCameraPosition 0.07
    if cam.distanceTo w.inter.targetCameraPosition < 1 then
      { w with
          cameraPosition := cam
          inter := { w.inter with isMovingTowardsPlanet := false, isPlanetInfoVisible := true } }
    else { w with cameraPosition := cam }
  else if w.inter.isZoomingOut then
    let cam := Vec3.lerpV w.cameraPosition zoomOutTargetPosition 0.08
    if cam.distanceTo zoomOutTargetPosition < 1 then
      { w with
          cameraPosition := cam
          inter := { w.inter with isZoomingOut := false }
          controls := freeCameraControls w.controls }
    else { w with cameraPosition := cam }
  else if w.inter.isTrackingPlanet && w.inter.trackedPlanet.isSome then
    updatePlanetTracking w
  else w

/-! ### Vector lemmas -/

theorem Vec3.length_eq_zero_iff (v : Vec3 ℝ) : v.length = 0 ↔ v = ⟨0, 0, 0⟩ := by
  rw [Vec3.length, Real.sqrt_eq_zero
    (by nlinarith [mul_self_nonneg v.x, mul_self_nonneg v.y, mul_self_nonneg v.z])]
  constructor
  · intro h
    cases v with
    | mk x y z =>
        have hx : x = 0 := by nlinarith [mul_self_nonneg x, mul_self_nonneg y, mul_self_nonneg z]
        have hy : y = 0 := by nlinarith [mul_self_nonneg x, mul_self_nonneg y, mul_self_nonneg z]
        have hz : z = 0 := by nlinarith [mul_self_nonneg x, mul_self_nonneg y, mul_self_nonneg z]
        simp [hx, hy, hz]
  · rintro rfl
    norm_num

theorem Vec3.sub_eq_zero_iff (a b : Vec3 ℝ) : Vec3.sub a b = ⟨0, 0, 0⟩ ↔ a = b := by
  cases a with
  | mk ax ay az =>
      cases b with
      | mk bx b02 bz =>
          simp [Vec3.sub, sub_eq_zero]

/-! ### C4 -/

/-- C4: from a state where no info panel is showing, a click resolved to
a body immediately pauses the clock, enters the moving-towards-planet
phase, and sets the target camera position to the body's click position
plus the unit vector pointing from the body to the current camera
position scaled by the body's per-body offset. -/
theorem c4_select_body (w : World) (b : Body)
    (hInfo : w.inter.isPlanetInfoVisible = false)
    (hne : w.cameraPosition ≠ bodyClickPosition b) :
    (onMouseDown (ClickHit.body b) w).timeControl.isPaused = true
    ∧ (onMouseDown (ClickHit.body b) w).inter.isMovingTowardsPlanet = true
    ∧ (onMouseDown (ClickHit.body b) w).inter.targetCameraPosition
        = Vec3.add (bodyClickPosition b)
            (Vec3.smul (getCameraOffset b.name)
              (Vec3.smul (1 / (Vec3.sub w.cameraPosition (bodyClickPosition b)).length)
                (Vec3.sub w.cameraPosition (bodyClickPosition b)))) := by
  have hv : Vec3.sub w.cameraPosition (bodyClickPosition b) ≠ ⟨0, 0, 0⟩ := by
    intro h
    exact hne ((Vec3.sub_eq_zero_iff _ _).mp h)
  have hlen : (Vec3.sub w.cameraPosition (bodyClickPosition b)).length ≠ 0 := by
    intro h
    exact hv ((Vec3.length_eq_zero_iff _).mp h)
  simp only [onMouseDown, hInfo, Bool.false_eq_true, if_false, closeInfoNoZoomOut,
    stopPlanetTracking, TimeControl.resume, TimeControl.pause, Vec3.normalize, if_neg hlen]
  exact ⟨trivial, trivial, trivial⟩

/-- A concrete idle world: the camera at (3, 0, 4), nothing selected,
no info panel, nothing tracked, clock fresh. -/
def wIdle : World :=
  { cameraPosition := ⟨3, 0, 4⟩
    controls :=
      { target := ⟨0, 0, 0⟩, enabled := true, enableRotate := true, enableZoom := true,
        enablePan := true, autoRotate := false, enableDamping := true, dampingFactor := 0.75 }
    timeControl := TimeControl.construct
    inter :=
      { selectedPlanet := none, isMovingTowardsPlanet := false,
        targetCameraPosition := ⟨0, 0, 0⟩, offset := 0, isPlanetInfoVisible := false,
        isTrackingPlanet := false, trackedPlanet := none,
        cameraRelativePosition := ⟨0, 0, 0⟩, isZoomingOut := false } }

/-- Earth as `identifyPlanet` reports it, placed at the origin. -/
def earthBody : Body := ⟨"Earth", false, ⟨0, 0, 0⟩⟩

/-- C4 witness: selecting Earth from the concrete idle world. -/
theorem c4_select_body_witness :
    wIdle.inter.isPlanetInfoVisible = false
    ∧ wIdle.cameraPosition ≠ bodyClickPosition earthBody
    ∧ ((onMouseDown (ClickHit.body earthBody) wIdle).timeControl.isPaused = true
        ∧ (onMouseDown (ClickHit.body earthBody) wIdle).inter.isMovingTowardsPlanet = true
        ∧ (onMouseDown (ClickHit.body earthBody) wIdle).inter.targetCameraPosition
            = Vec3.add (bodyClickPosition earthBody)
                (Vec3.smul (getCameraOffset earthBody.name)
                  (Vec3.smul
                    (1 / (Vec3.sub wIdle.cameraPosition (bodyClickPosition earthBody)).length)
                    (Vec3.sub wIdle.cameraPosition (bodyClickPosition earthBody))))) :=
  ⟨rfl,
   by
     simp only [wIdle, earthBody, bodyClickPosition, Bool.false_eq_true, if_false]
     intro h
     have := congrArg Vec3.x h
     norm_num at this,
   c4_select_body wIdle earthBody rfl
     (by
       simp only [wIdle, earthBody, bodyClickPosition, Bool.false_eq_true, if_false]
       intro h
       have := congrArg Vec3.x h
       norm_num at this)⟩

/-! ### C5 -/

/-- A world currently showing Earth's info panel. -/
def wShowing : World :=
  { wIdle with
      inter := { wIdle.inter with
                   selectedPlanet := some earthBody
                   isPlanetInfoVisible := true } }

/-- Venus as `identifyPlanet` would report it. -/
def venusBody : Body := ⟨"Venus", false, ⟨10, 0, 0⟩⟩

/-- C5, as stated, is false: while the info panel is showing,
`onMouseDown` returns before any raycast processing, so a click that hits
a different body changes nothing — no close, no tracking reset, no new
moving-towards-target phase, and the selection still names the old body. -/
theorem c5_counterexample :
    wShowing.inter.isPlanetInfoVisible = true
    ∧ onMouseDown (ClickHit.body venusBody) wShowing = wShowing
    ∧ (onMouseDown (ClickHit.body venusBody) wShowing).inter.isMovingTowardsPlanet = false
    ∧ (onMouseDown (ClickHit.body venusBody) wShowing).inter.selectedPlanet = some earthBody := by
  refine ⟨rfl, ?_, ?_, ?_⟩ <;> rfl

/-- C5 amended: while the info panel is visible every click is ignored
outright (`onMouseDown` returns unchanged state), so re-selection of a
different body from the showing-info state never happens; the
close-then-reselect path (`closeInfoNoZoomOut` followed by a new
moving-towards-target phase) runs only for clicks made while no info
panel is visible. -/
theorem c5_clicks_ignored_while_info_visible (w : World) (hit : ClickHit)
    (h : w.inter.isPlanetInfoVisible = true) :
    onMouseDown hit w = w := by
  rw [onMouseDown.eq_def, h]
  rfl

/-- C5 witness: a click on empty space while Earth's info panel shows is
ignored. -/
theorem c5_clicks_ignored_witness :
    wShowing.inter.isPlanetInfoVisible = true
    ∧ onMouseDown ClickHit.empty wShowing = wShowing :=
  ⟨rfl, c5_clicks_ignored_while_info_visible wShowing ClickHit.empty rfl⟩

/-! ### C10 -/

/-- C10: whenever the info panel is not visible, a click that hits
nothing stops tracking, frees the camera controls, and unconditionally
clears the paused flag (`closeInfoNoZoomOut` calls `resume()`), even if
the user had paused explicitly and no body was selected. -/
theorem c10_empty_click_unpauses (w : World)
    (h : w.inter.isPlanetInfoVisible = false) :
    (onMouseDown ClickHit.empty w).timeControl.isPaused = false
    ∧ (onMouseDown ClickHit.empty w).inter.isTrackingPlanet = false
    ∧ (onMouseDown ClickHit.empty w).inter.trackedPlanet = none
    ∧ (onMouseDown ClickHit.empty w).controls.enabled = true
    ∧ (onMouseDown ClickHit.empty w).controls.enableRotate = true
    ∧ (onMouseDown ClickHit.empty w).controls.enableZoom = true
    ∧ (onMouseDown ClickHit.empty w).controls.enablePan = true := by
  simp only [onMouseDown, h, Bool.false_eq_true, if_false, closeInfoNoZoomOut,
    stopPlanetTracking, freeCameraControls, TimeControl.resume]
  exact ⟨trivial, trivial, trivial, trivial, trivial, trivial, trivial⟩

/-- A world in which the user paused explicitly (play/pause control) with
nothing selected and nothing tracked. -/
def wPausedIdle : World :=
  { wIdle with timeControl := TimeControl.construct.pause }

/-- C10 witness: the empty click clears the explicitly set paused flag of
the concrete paused idle world. -/
theorem c10_empty_click_unpauses_witness :
    wPausedIdle.inter.isPlanetInfoVisible = false
    ∧ wPausedIdle.timeControl.isPaused = true
    ∧ ((onMouseDown ClickHit.empty wPausedIdle).timeControl.isPaused = false
        ∧ (onMouseDown ClickHit.empty wPausedIdle).inter.isTrackingPlanet = false
        ∧ (onMouseDown ClickHit.empty wPausedIdle).inter.trackedPlanet = none
        ∧ (onMouseDown ClickHit.empty wPausedIdle).controls.enabled = true
        ∧ (onMouseDown ClickHit.empty wPausedIdle).controls.enableRotate = true
        ∧ (onMouseDown ClickHit.empty wPausedIdle).controls.enableZoom = true
        ∧ (onMouseDown ClickHit.empty wPausedIdle).controls.enablePan = true) :=
  ⟨rfl, rfl, c10_empty_click_unpauses wPausedIdle rfl⟩

/-! ### C9 -/

theorem Vec3.length_smul (c : ℝ) (v : Vec3 ℝ) :
    (Vec3.smul c v).length = |c| * v.length := by
  unfold Vec3.length Vec3.smul
  simp only
  rw [show c * v.x * (c * v.x) + c * v.y * (c * v.y) + c * v.z * (c * v.z)
        = c ^ 2 * (v.x * v.x + v.y * v.y + v.z * v.z) by ring,
    Real.sqrt_mul (sq_nonneg c), Real.sqrt_sq_eq_abs]

theorem Vec3.length_nonneg (v : Vec3 ℝ) : 0 ≤ v.length :=
  Real.sqrt_nonneg _

/-- One zoom-out lerp contracts the distance to the overview position by
the factor 0.92. -/
theorem zoom_lerp_dist (cam : Vec3 ℝ) :
    (Vec3.lerpV cam zoomOutTargetPosition 0.08).distanceTo zoomOutTargetPosition
      = 0.92 * cam.distanceTo zoomOutTargetPosition := by
  have h : Vec3.sub (Vec3.lerpV cam zoomOutTargetPosition 0.08) zoomOutTargetPosition
      = Vec3.smul 0.92 (Vec3.sub cam zoomOutTargetPosition) := by
    simp only [Vec3.lerpV, Vec3.sub, Vec3.smul, Vec3.mk.injEq]
    refine ⟨by ring, by ring, by ring⟩
  rw [Vec3.distanceTo, h, Vec3.length_smul, Vec3.distanceTo]
  norm_num

/-- `N` frames of `updateCameraMovement`. -/
noncomputable def stepN : ℕ → World → World
  | 0, w => w
  | n + 1, w => stepN n (updateCameraMovement w)

/-- A zoom-out frame that has not yet converged (post-lerp distance still
at least 1) only moves the camera. -/
theorem zoom_step_stay (w : World)
    (hz : w.inter.isZoomingOut = true)
    (hm : w.inter.isMovingTowardsPlanet = false)
    (hd : ¬ 0.92 * w.cameraPosition.distanceTo zoomOutTargetPosition < 1) :
    updateCameraMovement w
      = { w with cameraPosition := Vec3.lerpV w.cameraPosition zoomOutTargetPosition 0.08 } := by
  rw [updateCameraMovement.eq_def, hm, hz]
  simp only [Bool.false_eq_true, if_false, if_true, zoom_lerp_dist, if_neg hd]

/-- A zoom-out frame whose lerp lands within distance 1 of the overview
position ends the zooming phase and frees the camera controls. -/
theorem zoom_step_exit (w : World)
    (hz : w.inter.isZoomingOut = true)
    (hm : w.inter.isMovingTowardsPlanet = false)
    (hd : 0.92 * w.cameraPosition.distanceTo zoomOutTargetPosition < 1) :
    updateCameraMovement w
      = { w with
            cameraPosition := Vec3.lerpV w.cameraPosition zoomOutTargetPosition 0.08
            inter := { w.inter with isZoomingOut := false }
            controls := freeCameraControls w.controls } := by
  rw [updateCameraMovement.eq_def, hm, hz]
  simp only [Bool.false_eq_true, if_false, if_true, zoom_lerp_dist, if_pos hd]

theorem zoom_exits_within (k : ℕ) :
    ∀ w : World, w.inter.isZoomingOut = true → w.inter.isMovingTowardsPlanet = false →
      w.cameraPosition.distanceTo zoomOutTargetPosition * 0.92 ^ k < 1 / 0.92 →
      ∃ N : ℕ, (stepN N w).inter.isZoomingOut = false
        ∧ (stepN N w).controls.enabled = true
        ∧ (stepN N w).controls.enableRotate = true
        ∧ (stepN N w).controls.enableZoom = true
        ∧ (stepN N w).controls.enablePan = true := by
  induction k with
  | zero =>
      intro w hz hm hd
      rw [pow_zero, mul_one] at hd
      have hexit : 0.92 * w.cameraPosition.distanceTo zoomOutTargetPosition < 1 := by
        nlinarith
      refine ⟨1, ?_⟩
      simp only [show stepN 1 w = updateCameraMovement w from rfl,
        zoom_step_exit w hz hm hexit]
      simp [freeCameraControls]
  | succ k ih =>
      intro w hz hm hd
      by_cases hexit : 0.92 * w.cameraPosition.distanceTo zoomOutTargetPosition < 1
      · refine ⟨1, ?_⟩
        simp only [show stepN 1 w = updateCameraMovement w from rfl,
          zoom_step_exit w hz hm hexit]
        simp [freeCameraControls]
      · have hstep := zoom_step_stay w hz hm hexit
        have hd' : (updateCameraMovement w).cameraPosition.distanceTo zoomOutTargetPosition
              * 0.92 ^ k < 1 / 0.92 := by
          rw [hstep]
          simp only [zoom_lerp_dist]
          calc 0.92 * w.cameraPosition.distanceTo zoomOutTargetPosition * 0.92 ^ k
              = w.cameraPosition.distanceTo zoomOutTargetPosition * 0.92 ^ (k + 1) := by ring
            _ < 1 / 0.92 := hd
        have hz' : (updateCameraMovement w).inter.isZoomingOut = true := by
          rw [hstep]; exact hz
        have hm' : (updateCameraMovement w).inter.isMovingTowardsPlanet = false := by
          rw [hstep]; exact hm
        obtain ⟨N, hN⟩ := ih (updateCameraMovement w) hz' hm' hd'
        exact ⟨N + 1, hN⟩

/-- C9 counterexample: there is no uniform frame bound within which the
zooming-out phase self-cancels — for every candidate bound `N` there is a
zooming-out state (camera far enough from the overview position) that is
still zooming out after `N` frames, because the only way out of the phase
is the `distance < 1` convergence check. -/
theorem c9_counterexample :
    ¬ ∃ N : ℕ, ∀ w : World, w.inter.isZoomingOut = true →
        (stepN N w).inter.isZoomingOut = false := by
  rintro ⟨N, h⟩
  have hfam : ∀ (k : ℕ) (x : ℝ), 1 ≤ 0.92 ^ k * x →
      stepN k
          { wIdle with
              cameraPosition := Vec3.add zoomOutTargetPosition ⟨x, 0, 0⟩
              inter := { wIdle.inter with isZoomingOut := true } }
        = { wIdle with
              cameraPosition := Vec3.add zoomOutTargetPosition ⟨0.92 ^ k * x, 0, 0⟩
              inter := { wIdle.inter with isZoomingOut := true } } := by
    intro k
    induction k with
    | zero =>
        intro x hx
        rw [stepN]
        norm_num
    | succ k ih =>
        intro x hx
        have hxpos : 0 < 0.92 * x := by
          have h1 : (0:ℝ) < 0.92 ^ (k + 1) * x := lt_of_lt_of_le one_pos hx
          have h2 : (0:ℝ) < 0.92 ^ k := by positivity
          nlinarith [pow_pos (show (0:ℝ) < 0.92 by norm_num) (k + 1)]
        have hstay : 1 ≤ 0.92 * x := by
          have hk1 : (0.92:ℝ) ^ k ≤ 1 :=
            pow_le_one₀ (by norm_num) (by norm_num)
          calc (1:ℝ) ≤ 0.92 ^ (k + 1) * x := hx
            _ = 0.92 ^ k * (0.92 * x) := by ring
            _ ≤ 1 * (0.92 * x) := by
                exact mul_le_mul_of_nonneg_right hk1 hxpos.le
            _ = 0.92 * x := one_mul _
        have hdist :
            ({ wIdle with
                cameraPosition := Vec3.add zoomOutTargetPosition ⟨x, 0, 0⟩
                inter := { wIdle.inter with isZoomingOut := true } } :
              World).cameraPosition.distanceTo zoomOutTargetPosition = x := by
          simp only [Vec3.distanceTo, Vec3.sub, Vec3.add, Vec3.length, zoomOutTargetPosition]
          rw [show (-175 + x - -175) * (-175 + x - -175) + (115 + 0 - 115) * (115 + 0 - 115)
                + (5 + 0 - 5) * (5 + 0 - 5) = x ^ 2 by ring, Real.sqrt_sq_eq_abs]
          have : (0:ℝ) < x := by nlinarith
          exact abs_of_pos this
        have hnd : ¬ 0.92 * ({ wIdle with
                cameraPosition := Vec3.add zoomOutTargetPosition ⟨x, 0, 0⟩
                inter := { wIdle.inter with isZoomingOut := true } } :
              World).cameraPosition.distanceTo zoomOutTargetPosition < 1 := by
          rw [hdist]
          exact not_lt.mpr hstay
        have hone := zoom_step_stay _ rfl rfl hnd
        have hcam : Vec3.lerpV (Vec3.add zoomOutTargetPosition ⟨x, 0, 0⟩)
              zoomOutTargetPosition 0.08
            = Vec3.add zoomOutTargetPosition ⟨0.92 * x, 0, 0⟩ := by
          simp only [Vec3.lerpV, Vec3.add, zoomOutTargetPosition, Vec3.mk.injEq]
          refine ⟨by ring, by ring, by ring⟩
        show stepN k (updateCameraMovement _) = _
        rw [hone]
        simp only [hcam]
        have hx' : 1 ≤ 0.92 ^ k * (0.92 * x) := by
          calc (1:ℝ) ≤ 0.92 ^ (k + 1) * x := hx
            _ = 0.92 ^ k * (0.92 * x) := by ring
        have := ih (0.92 * x) hx'
        rw [show (0.92:ℝ) ^ k * (0.92 * x) = 0.92 ^ (k + 1) * x by ring] at this
        exact this
  have hx : (1:ℝ) ≤ 0.92 ^ N * ((1 / 0.92) ^ N * 2) := by
    rw [← mul_assoc, ← mul_pow]
    norm_num
  have hres := hfam N ((1 / 0.92) ^ N * 2) hx
  have hz := h { wIdle with
      cameraPosition := Vec3.add zoomOutTargetPosition ⟨(1 / 0.92) ^ N * 2, 0, 0⟩
      inter := { wIdle.inter with isZoomingOut := true } } rfl
  rw [hres] at hz
  exact absurd hz (by simp [wIdle])

/-- C9 amended: the zooming-out phase has no wall-clock timeout guard at
all — it ends only through the `distance < 1` convergence check, and the
number of frames that takes grows without bound in the starting distance
(`c9_counterexample`). What does hold is per-state convergence: from any
state in the zooming-out phase, the exponential lerp (factor 0.08 per
frame) brings the camera within the epsilon distance after finitely many
frames, at which point the phase ends and the camera controls are freed. -/
theorem c9_zoomOut_converges (w : World)
    (hz : w.inter.isZoomingOut = true)
    (hm : w.inter.isMovingTowardsPlanet = false) :
    ∃ N : ℕ, (stepN N w).inter.isZoomingOut = false
      ∧ (stepN N w).controls.enabled = true
      ∧ (stepN N w).controls.enableRotate = true
      ∧ (stepN N w).controls.enableZoom = true
      ∧ (stepN N w).controls.enablePan = true := by
  set d := w.cameraPosition.distanceTo zoomOutTargetPosition with hd
  have hd0 : 0 ≤ d := Vec3.length_nonneg _
  obtain ⟨k, hk⟩ : ∃ k : ℕ, (0.92:ℝ) ^ k < (1 / 0.92) / (d + 1) :=
    exists_pow_lt_of_lt_one (by positivity) (by norm_num)
  have hdk : d * 0.92 ^ k < 1 / 0.92 := by
    have h1 : d * 0.92 ^ k ≤ (d + 1) * 0.92 ^ k := by
      have : (0:ℝ) ≤ 0.92 ^ k := by positivity
      nlinarith
    have h2 : (d + 1) * 0.92 ^ k < (d + 1) * ((1 / 0.92) / (d + 1)) := by
      have : (0:ℝ) < d + 1 := by linarith
      exact mul_lt_mul_of_pos_left hk this
    have h3 : (d + 1) * ((1 / 0.92) / (d + 1)) = 1 / 0.92 := by
      rw [mul_comm]
      exact div_mul_cancel₀ _ (by linarith)
    linarith
  exact zoom_exits_within k w hz hm hdk

/-- A concrete world in the zooming-out phase. -/
def wZooming : World :=
  { wIdle with
      cameraPosition := ⟨0, 0, 0⟩
      inter := { wIdle.inter with isZoomingOut := true } }

/-- C9 witness: the concrete zooming world leaves the zooming-out phase
with freed controls after finitely many frames. -/
theorem c9_zoomOut_converges_witness :
    wZooming.inter.isZoomingOut = true
    ∧ wZooming.inter.isMovingTowardsPlanet = false
    ∧ (∃ N : ℕ, (stepN N wZooming).inter.isZoomingOut = false
        ∧ (stepN N wZooming).controls.enabled = true
        ∧ (stepN N wZooming).controls.enableRotate = true
        ∧ (stepN N wZooming).controls.enableZoom = true
        ∧ (stepN N wZooming).controls.enablePan = true) :=
  ⟨rfl, rfl, c9_zoomOut_converges wZooming rfl rfl⟩

/-! ## Gravitational easing (AsteroidTrajectory.applyGravitationalAcceleration) -/

/-- `applyGravitationalAcceleration(linearProgress)`: quadratic easing of
the last 30% of the journey. -/
noncomputable def applyGravitationalAcceleration (linearProgress : ℝ) : ℝ :=
  if 0.7 < linearProgress then
    let lastPhase := (linearProgress - 0.7) / 0.3
    let accelerated := lastPhase * lastPhase
    0.7 + accelerated * 0.3
  else linearProgress

/-! ### C6 -/

/-- C6: the gravitational-ease mapping is continuous at the 0.7 boundary
and monotonically increasing on `[0, 1]`. -/
theorem c6_ease_continuous_and_monotone :
    ContinuousAt applyGravitationalAcceleration 0.7
    ∧ MonotoneOn applyGravitationalAcceleration (Set.Icc 0 1) := by
  constructor
  · have hfun : applyGravitationalAcceleration
        = fun p : ℝ => if p ≤ 0.7 then p
            else 0.7 + ((p - 0.7) / 0.3) * ((p - 0.7) / 0.3) * 0.3 := by
      funext p
      rw [applyGravitationalAcceleration]
      by_cases h : (0.7:ℝ) < p
      · rw [if_pos h, if_neg (not_le.mpr h)]
      · rw [if_neg h, if_pos (not_lt.mp h)]
    have hcont : Continuous fun p : ℝ => if p ≤ 0.7 then p
        else 0.7 + ((p - 0.7) / 0.3) * ((p - 0.7) / 0.3) * 0.3 := by
      apply Continuous.if_le
      · exact continuous_id
      · fun_prop
      · exact continuous_id
      · exact continuous_const
      · intro p hp
        rw [hp]
        norm_num
    rw [hfun]
    exact hcont.continuousAt
  · intro a ha b hb hab
    simp only [applyGravitationalAcceleration]
    by_cases ha7 : (0.7:ℝ) < a
    · by_cases hb7 : (0.7:ℝ) < b
      · rw [if_pos ha7, if_pos hb7]
        have he : ∀ x : ℝ, (x - 0.7) / 0.3 * ((x - 0.7) / 0.3) * 0.3
            = (x - 0.7) * (x - 0.7) * (10 / 3) := by
          intro x; ring
        rw [he a, he b]
        have hprod : (0:ℝ) ≤ (b - a) * (a + b - 1.4) := by
          apply mul_nonneg (sub_nonneg.mpr hab)
          have := ha7.le
          linarith
        nlinarith [hprod]
      · exact absurd (lt_of_lt_of_le ha7 hab) hb7
    · by_cases hb7 : (0.7:ℝ) < b
      · rw [if_neg ha7, if_pos hb7]
        have h1 : a ≤ 0.7 := not_lt.mp ha7
        have he : (b - 0.7) / 0.3 * ((b - 0.7) / 0.3) * 0.3
            = (b - 0.7) * (b - 0.7) * (10 / 3) := by ring
        rw [he]
        nlinarith [mul_self_nonneg (b - 0.7)]
      · rw [if_neg ha7, if_neg hb7]
        exact hab

/-! ## Asteroid trajectory (the synchronous variant of the module) -/

/-- The asteroid mesh: its position and the two tumbling angles the
synchronous `update` increments (`rotation.x += 0.01; rotation.y += 0.02`). -/
structure Asteroid where
  position : Vec3 ℚ
  rotX : ℚ
  rotY : ℚ
deriving DecidableEq, Repr

/-- One precomputed trajectory sample `{position, date, progress}`.
`date` is `none` when the stored impact date is invalid (its NaN
timestamp poisons the sample date). -/
structure TrajPoint where
  position : Vec3 ℚ
  date : Option ℚ
  progress : ℚ
deriving DecidableEq, Repr

/-- The mutable state of the `AsteroidTrajectory` class. `impactDate` /
`startDate` are `none` for null or an invalid date — the two are
indistinguishable here because `update` is guarded by `isActive`, which
is set only by `setupTrajectory`, after which the fields hold Date
objects; `hasTrajectoryLine` models whether the trajectory line object
currently exists in the scene. -/
structure AsteroidTrajectory where
  isActive : Bool
  asteroid : Option Asteroid
  startPosition : Vec3 ℚ
  endPosition : Vec3 ℚ
  impactDate : Option ℚ
  startDate : Option ℚ
  trajectory : List TrajPoint
  hasTrajectoryLine : Bool
deriving DecidableEq, Repr

/-- A trajectory configuration as destructured by `setupTrajectory`:
`none` marks a field missing from the config object (undefined). -/
structure TrajConfig where
  startPosition : Option (Vec3 ℚ)
  endPosition : Option (Vec3 ℚ)
  impactDate : Option ℚ

/-- The `AsteroidTrajectory` constructor. -/
def AsteroidTrajectory.construct : AsteroidTrajectory :=
  { isActive := false
    asteroid := none
    startPosition := ⟨0, 0, 0⟩
    endPosition := ⟨0, 0, 0⟩
    impactDate := none
    startDate := none
    trajectory := []
    hasTrajectoryLine := false }

/-- `AsteroidTrajectory.setupTrajectory(config)`. The source performs no
validation: reading `.x` of a missing start position throws a TypeError
before any mutation (`Except.error` with the unchanged state); a missing
end position throws after the start position and the dates are already
stored (`Except.error` with the partially mutated state); a missing
impact date is accepted — `new Date(undefined)` stores an invalid date —
and the function rebuilds the asteroid and the 101 trajectory samples,
activates, and returns `true`. -/
def AsteroidTrajectory.setupTrajectory (s : AsteroidTrajectory) (config : TrajConfig)
    (currentSimulationDate : ℚ) : Except AsteroidTrajectory (AsteroidTrajectory × Bool) :=
  match config.startPosition with
  | none => Except.error s
  | some sp =>
      let s1 : AsteroidTrajectory :=
        { s with
            startPosition := sp
            impactDate := config.impactDate
            startDate := some currentSimulationDate }
      match config.endPosition with
      | none => Except.error s1
      | some ep =>
          let s2 : AsteroidTrajectory :=
            { s1 with
                endPosition := ep
                asteroid := some { position := sp, rotX := 0, rotY := 0 } }
          let traj : List TrajPoint :=
            (List.range 101).map fun i =>
              let t : ℚ := (i : ℚ) / 100
              { position := Vec3.lerpV sp ep t
                date := config.impactDate.map
                  (fun impact => currentSimulationDate + (impact - currentSimulationDate) * t)
                progress := t }
          Except.ok
            ({ s2 with trajectory := traj, hasTrajectoryLine := true, isActive := true }, true)

/-- `currentDate >= this.impactDate` on Date timestamps: false when the
impact date is invalid (NaN compares false). -/
def impactReached (impactDate : Option ℚ) (currentDate : ℚ) : Bool :=
  match impactDate with
  | some impact => decide (impact ≤ currentDate)
  | none => false

/-- `currentDate < this.startDate`, false when the start date is invalid. -/
def notYetStarted (startDate : Option ℚ) (currentDate : ℚ) : Bool :=
  match startDate with
  | some sd => decide (currentDate < sd)
  | none => false

/-- `AsteroidTrajectory.update()` (the synchronous variant), with the
current simulation date passed explicitly. `triggerImpact` is inlined: it
pins the asteroid at the end position, spawns purely visual impact
effects (not modelled), and clears `isActive` synchronously. The final
catch-all arm is unreachable for states produced by `setupTrajectory`
(an active trajectory always carries a start date). -/
def AsteroidTrajectory.update (s : AsteroidTrajectory) (currentDate : ℚ) : AsteroidTrajectory :=
  if !s.isActive then s
  else
    match s.asteroid with
    | none => s
    | some a =>
        if s.trajectory.isEmpty then s
        else if impactReached s.impactDate currentDate then
          { s with asteroid := some { a with position := s.endPosition }, isActive := false }
        else if notYetStarted s.startDate currentDate then
          { s with asteroid := some { a with position := s.startPosition } }
        else
          match s.impactDate, s.startDate with
          | some impact, some sd =>
              let totalTime := impact - sd
              let elapsed := currentDate - sd
              let progress := max 0 (min 1 (elapsed / totalTime))
              let currentPosition := Vec3.lerpV s.startPosition s.endPosition progress
              let tumbled : Asteroid :=
                { position := currentPosition, rotX := a.rotX + 0.01, rotY := a.rotY + 0.02 }
              { s with asteroid := some tumbled }
          | _, _ => s

/-- `AsteroidTrajectory.reset()`: removes the asteroid and the trajectory
line from the scene, deactivates, clears the samples. -/
def AsteroidTrajectory.reset (s : AsteroidTrajectory) : AsteroidTrajectory :=
  { s with
      asteroid := none
      hasTrajectoryLine := false
      isActive := false
      trajectory := [] }

theorem update_inactive (s : AsteroidTrajectory) (d : ℚ) (h : s.isActive = false) :
    s.update d = s := by
  simp [AsteroidTrajectory.update, h]

theorem foldl_update_inactive (ds : List ℚ) (s : AsteroidTrajectory)
    (h : s.isActive = false) :
    ds.foldl AsteroidTrajectory.update s = s := by
  induction ds with
  | nil => rfl
  | cons d ds ih =>
      rw [List.foldl_cons, update_inactive s d h]
      exact ih

theorem setupTrajectory_ok (s : AsteroidTrajectory) (cfg : TrajConfig) (d : ℚ)
    (sp ep : Vec3 ℚ) (h1 : cfg.startPosition = some sp) (h2 : cfg.endPosition = some ep) :
    ∃ s' : AsteroidTrajectory,
      s.setupTrajectory cfg d = Except.ok (s', true) ∧ s'.isActive = true
        ∧ s'.impactDate = cfg.impactDate := by
  rw [AsteroidTrajectory.setupTrajectory, h1, h2]
  exact ⟨_, rfl, rfl, rfl⟩

theorem update_impact (s : AsteroidTrajectory) (a : Asteroid) (d ti : ℚ)
    (hA : s.isActive = true) (ha : s.asteroid = some a)
    (ht : s.trajectory ≠ []) (hi : s.impactDate = some ti) (hd : ti ≤ d) :
    s.update d
      = { s with asteroid := some { a with position := s.endPosition }, isActive := false } := by
  have hne : s.trajectory.isEmpty = false := by
    cases hlist : s.trajectory with
    | nil => exact absurd hlist ht
    | cons p ps => rfl
  rw [AsteroidTrajectory.update, hA, ha]
  simp [hne, impactReached, hi, hd]

/-! ### C7 -/

/-- C7: once an update observes a simulation date at or past the impact
date, the impact fires (the asteroid is pinned at the end position) and
the trajectory becomes inactive; every later update, with any dates,
leaves the state exactly as it is — until a `reset()` followed by a
`setupTrajectory()` with a well-formed config activates it again. -/
theorem c7_impact_terminal (s : AsteroidTrajectory) (a : Asteroid) (d ti : ℚ)
    (hA : s.isActive = true) (ha : s.asteroid = some a)
    (ht : s.trajectory ≠ []) (hi : s.impactDate = some ti) (hd : ti ≤ d) :
    ((s.update d).isActive = false
      ∧ (s.update d).asteroid = some { a with position := s.endPosition })
    ∧ (∀ ds : List ℚ, ds.foldl AsteroidTrajectory.update (s.update d) = s.update d)
    ∧ (∀ (cfg : TrajConfig) (sp ep : Vec3 ℚ) (d' : ℚ),
        cfg.startPosition = some sp → cfg.endPosition = some ep →
        ∃ s' : AsteroidTrajectory,
          ((s.update d).reset).setupTrajectory cfg d' = Except.ok (s', true)
            ∧ s'.isActive = true) := by
  have him := update_impact s a d ti hA ha ht hi hd
  refine ⟨⟨by simp [him], by simp [him]⟩, ?_, ?_⟩
  · intro ds
    exact foldl_update_inactive ds _ (by simp [him])
  · intro cfg sp ep d' h1 h2
    obtain ⟨s', h⟩ := setupTrajectory_ok _ cfg d' sp ep h1 h2
    exact ⟨s', h.1, h.2.1⟩

/-- A concrete active trajectory: impact date 99, start date 0, end
position (1, 2, 3), one precomputed sample. -/
def trajActiveSample : AsteroidTrajectory :=
  { isActive := true
    asteroid := some ⟨⟨0, 0, 0⟩, 0, 0⟩
    startPosition := ⟨0, 0, 0⟩
    endPosition := ⟨1, 2, 3⟩
    impactDate := some 99
    startDate := some 0
    trajectory := [⟨⟨0, 0, 0⟩, some 0, 0⟩]
    hasTrajectoryLine := true }

/-- C7 witness: the terminal impact behavior at the concrete active
trajectory and the simulation date 100 (past the impact date 99). -/
theorem c7_impact_terminal_witness :
    (trajActiveSample.isActive = true
      ∧ trajActiveSample.asteroid = some ⟨⟨0, 0, 0⟩, 0, 0⟩
      ∧ trajActiveSample.trajectory ≠ []
      ∧ trajActiveSample.impactDate = some 99
      ∧ (99 : ℚ) ≤ 100)
    ∧ (((trajActiveSample.update 100).isActive = false
        ∧ (trajActiveSample.update 100).asteroid
            = some { (⟨⟨0, 0, 0⟩, 0, 0⟩ : Asteroid) with
                       position := trajActiveSample.endPosition })
      ∧ (∀ ds : List ℚ,
          ds.foldl AsteroidTrajectory.update (trajActiveSample.update 100)
            = trajActiveSample.update 100)
      ∧ (∀ (cfg : TrajConfig) (sp ep : Vec3 ℚ) (d' : ℚ),
          cfg.startPosition = some sp → cfg.endPosition = some ep →
          ∃ s' : AsteroidTrajectory,
            ((trajActiveSample.update 100).reset).setupTrajectory cfg d'
                = Except.ok (s', true)
              ∧ s'.isActive = true)) :=
  ⟨⟨rfl, rfl, by decide, rfl, by decide⟩,
   c7_impact_terminal trajActiveSample ⟨⟨0, 0, 0⟩, 0, 0⟩ 100 99
     rfl rfl (by decide) rfl (by decide)⟩

/-! ### C8 -/

/-- A config object with no `impactDate` field. -/
def cfgMissingImpactDate : TrajConfig :=
  { startPosition := some ⟨5, 5, 5⟩, endPosition := some ⟨0, 0, 0⟩, impactDate := none }

/-- A config object with no `startPosition` field. -/
def cfgMissingStart : TrajConfig :=
  { startPosition := none, endPosition := some ⟨0, 0, 0⟩, impactDate := some 10 }

/-- C8, as stated, is false on both malformed-config cases: a config
missing the impact date is accepted — `setupTrajectory` returns success
(`true`), activates, stores an invalid impact date and overwrites the
previously active trajectory's start position — and a config missing the
start position makes `setupTrajectory` throw a TypeError (reading `.x`
of undefined) rather than return a failure result. -/
theorem c8_counterexample :
    ((trajActiveSample.setupTrajectory cfgMissingImpactDate 5).toOption.map Prod.snd
        = some true)
    ∧ ((trajActiveSample.setupTrajectory cfgMissingImpactDate 5).toOption.map
          (fun r => r.1.isActive) = some true)
    ∧ ((trajActiveSample.setupTrajectory cfgMissingImpactDate 5).toOption.map
          (fun r => r.1.impactDate) = some none)
    ∧ ((trajActiveSample.setupTrajectory cfgMissingImpactDate 5).toOption.map
          (fun r => r.1.startPosition) ≠ some trajActiveSample.startPosition)
    ∧ trajActiveSample.setupTrajectory cfgMissingStart 5 = Except.error trajActiveSample := by
  refine ⟨by decide, by decide, by decide, by decide, rfl⟩

/-- C8 amended: `setupTrajectory` performs no validation at all. Whenever
both positions are present it succeeds and activates regardless of the
impact date (storing the possibly invalid date as given); when the start
position is missing it throws before mutating anything (modelled as
`Except.error` carrying the unchanged state). It never returns a failure
result. -/
theorem c8_setupTrajectory_no_validation (s : AsteroidTrajectory) (cfg : TrajConfig) (d : ℚ) :
    (∀ sp ep : Vec3 ℚ, cfg.startPosition = some sp → cfg.endPosition = some ep →
      ∃ s' : AsteroidTrajectory,
        s.setupTrajectory cfg d = Except.ok (s', true) ∧ s'.isActive = true
          ∧ s'.impactDate = cfg.impactDate)
    ∧ (cfg.startPosition = none → s.setupTrajectory cfg d = Except.error s) := by
  constructor
  · intro sp ep h1 h2
    exact setupTrajectory_ok s cfg d sp ep h1 h2
  · intro h
    rw [AsteroidTrajectory.setupTrajectory, h]
